import Mathlib

/-!
Shallow embedding of the LG TV controller daemon (src/src/main.rs).

The program is a single supervisor loop holding `client : Option<WebosClient>`.
Each outer iteration:
  (A) if `client` is `None`, resolve the TV's IP from its MAC; if resolved,
      load the cached pairing key (trimmed) from `~/.lgtv_key`, attempt to
      connect; on success persist a changed key and set `client`;
  (B) compute the wait timeout (5 s when disconnected, 3600 s when connected),
      wait for the next queued command;
      - end of stream: break out of the loop;
      - timeout: iterate again;
      - command: if the TV is not the active audio device and the command
        starts with "volume" or equals "mute"/"unmute", skip it (`continue`);
        otherwise, if a client exists, dispatch the command; a failing
        get-volume query drops the client, set-call failures are ignored.

We model one outer iteration as a pure function `step` over the supervisor
state, with the environment (resolver, key file, connect outcome, audio gate,
received event, client call outcomes) passed explicitly. Session-client calls
made during a step are collected in a trace, each tagged with the id of the
session object used to make it.
-/

namespace LgTv

/-- Minimal JSON value model, enough for the get-volume response payload. -/
inductive Json where
  | null : Json
  | bool : Bool → Json
  | int : Int → Json
  | str : String → Json
  | obj : List (String × Json) → Json

/-- `serde_json::Value::get(key)`: field lookup on an object, `none` otherwise. -/
def Json.get : Json → String → Option Json
  | Json.obj fs, k => (fs.find? (fun p => p.1 = k)).map Prod.snd
  | _, _ => none

/-- `serde_json::Value::as_i64`: the integer if the value is an integer
representable as an `i64`. -/
def Json.as_i64 : Json → Option Int
  | Json.int n =>
    if -9223372036854775808 ≤ n ∧ n < 9223372036854775808 then some n else none
  | _ => none

/-- The volume extraction in `main.rs` lines 173 and 183:
`p.get("volumeStatus").and_then(|s| s.get("volume")).and_then(|v| v.as_i64())`. -/
def extractVolume (p : Json) : Option Int :=
  ((p.get "volumeStatus").bind (fun s => s.get "volume")).bind Json.as_i64

/-- The typed commands of the session-client boundary (`lg_webos_client::command::Command`). -/
inductive WebOsCommand where
  | GetVolume : WebOsCommand
  | SetVolume : Int → WebOsCommand
  | SetMute : Bool → WebOsCommand
deriving DecidableEq

/-- A session-client response: an optional JSON payload. -/
structure Response where
  payload : Option Json

/-- Outcomes of the session-client calls a single dispatch can make.
`getVolume = none` models the query returning `Err`; the set-call outcomes are
recorded even though the code discards them with `let _ = ...`. -/
structure ClientBehavior where
  getVolume : Option Response
  setVolumeOk : Bool
  setMuteOk : Bool

/-- An established session (`WebosClient` value): an identity for tracking
reuse across reconnects, and the pairing key it negotiated (`c.key`). -/
structure Session where
  id : Nat
  key : Option String
deriving DecidableEq

/-- Outcome of `tokio::time::timeout(wait_time, rx.recv()).await`:
`Ok(Some(cmd))`, `Ok(None)` (channel closed), or `Err` (timeout). -/
inductive RecvEvent where
  | command : String → RecvEvent
  | closed : RecvEvent
  | timeout : RecvEvent

/-- The environment one outer iteration interacts with. -/
structure Env where
  /-- `resolve_ip_from_mac()` result. -/
  resolvedIp : Option String
  /-- Contents of `~/.lgtv_key` if it exists and is readable, untrimmed. -/
  keyFileContents : Option String
  /-- `WebosClient::new(config).await` outcome; `none` models `Err`. -/
  connectResult : Option Session
  /-- `is_lg_tv_active_audio()` result. -/
  audioActive : Bool
  /-- What the wait on the command channel yields this iteration. -/
  recvEvent : RecvEvent
  /-- Outcomes of the session-client calls, should a dispatch make them. -/
  behavior : ClientBehavior

/-- What the connection-handling phase (part A, lines 132-155) did. -/
structure ConnectOutcome where
  state : Option Session
  resolveAttempted : Bool
  connectAttempted : Bool
  /-- Contents written to `~/.lgtv_key`, when a write happens (line 149). -/
  keyWrite : Option String
deriving DecidableEq

/-- Rust `str::trim`: the string with leading and trailing whitespace removed.
Implemented structurally over the character list so that it evaluates inside
kernel reduction. -/
def trimStr (s : String) : String :=
  String.mk
    (((s.data.dropWhile Char.isWhitespace).reverse.dropWhile Char.isWhitespace).reverse)

/-- Part A of the loop body (lines 132-155): when no client exists, resolve
the IP, load and trim the cached key, connect, and persist a changed key. -/
def connectPhase (st : Option Session) (env : Env) : ConnectOutcome :=
  match st with
  | some s =>
    { state := some s, resolveAttempted := false, connectAttempted := false,
      keyWrite := none }
  | none =>
    match env.resolvedIp with
    | none =>
      { state := none, resolveAttempted := true, connectAttempted := false,
        keyWrite := none }
    | some _ip =>
      let key : Option String := env.keyFileContents.map (fun k => trimStr k)
      match env.connectResult with
      | none =>
        { state := none, resolveAttempted := true, connectAttempted := true,
          keyWrite := none }
      | some c =>
        let write : Option String :=
          match c.key with
          | none => none
          | some newKey =>
            let t := trimStr newKey
            if key = some t then none else some t
        { state := some c, resolveAttempted := true, connectAttempted := true,
          keyWrite := write }

/-- Rust `i64 as i8`: two's-complement wrap into `[-128, 127]`. -/
def asI8 (n : Int) : Int :=
  (n + 128) % 256 - 128

/-- Rust `i64` addition/subtraction in a release build: two's-complement wrap
into `[-2^63, 2^63 - 1]` on overflow. -/
def wrapI64 (n : Int) : Int :=
  (n + 9223372036854775808) % 18446744073709551616 - 9223372036854775808

/-- The per-command dispatch (lines 168-194): the list of session-client calls
made, in order, and whether the block's `Result` was `Ok`. The `vol + 1` and
`vol - 1` are `i64` operations, so they wrap at the `i64` endpoints (release
build semantics). -/
def dispatch (beh : ClientBehavior) (cmd : String) : List WebOsCommand × Bool :=
  if cmd = "volume_up" then
    match beh.getVolume with
    | none => ([WebOsCommand.GetVolume], false)
    | some resp =>
      match resp.payload with
      | none => ([WebOsCommand.GetVolume], true)
      | some p =>
        match extractVolume p with
        | none => ([WebOsCommand.GetVolume], true)
        | some vol =>
          let nv := min (max (wrapI64 (vol + 1)) 0) 100
          ([WebOsCommand.GetVolume, WebOsCommand.SetVolume (asI8 nv)], true)
  else if cmd = "volume_down" then
    match beh.getVolume with
    | none => ([WebOsCommand.GetVolume], false)
    | some resp =>
      match resp.payload with
      | none => ([WebOsCommand.GetVolume], true)
      | some p =>
        match extractVolume p with
        | none => ([WebOsCommand.GetVolume], true)
        | some vol =>
          let nv := min (max (wrapI64 (vol - 1)) 0) 100
          ([WebOsCommand.GetVolume, WebOsCommand.SetVolume (asI8 nv)], true)
  else if cmd = "mute" then
    ([WebOsCommand.SetMute true], true)
  else if cmd = "unmute" then
    ([WebOsCommand.SetMute false], true)
  else
    ([], true)

/-- Rust `str::starts_with`: byte-prefix test, here as a structural
character-list prefix test so it evaluates inside kernel reduction. -/
def startsWithStr (s pre : String) : Bool :=
  pre.data.isPrefixOf s.data

/-- The audio-gate test of line 163:
`!is_lg_tv_active_audio() && (cmd.starts_with("volume") || cmd == "mute" || cmd == "unmute")`. -/
def gateSuppressed (audioActive : Bool) (cmd : String) : Bool :=
  !audioActive && (startsWithStr cmd "volume" || cmd = "mute" || cmd = "unmute")

/-- The result of one outer iteration of the supervisor loop. -/
structure StepResult where
  /-- `client` at the end of the iteration. -/
  state : Option Session
  resolveAttempted : Bool
  connectAttempted : Bool
  keyWrite : Option String
  /-- The chosen wait timeout, in seconds (line 158). -/
  waitTime : Nat
  /-- Session-client calls made, each tagged with the id of the session used. -/
  calls : List (Nat × WebOsCommand)
  /-- Whether this iteration executed `break` (line 201). -/
  breaks : Bool
deriving DecidableEq

/-- One outer iteration of the supervisor loop (lines 130-204). -/
def step (st : Option Session) (env : Env) : StepResult :=
  let co := connectPhase st env
  let waitTime : Nat := if co.state.isNone then 5 else 3600
  match env.recvEvent with
  | RecvEvent.closed =>
    { state := co.state, resolveAttempted := co.resolveAttempted,
      connectAttempted := co.connectAttempted, keyWrite := co.keyWrite,
      waitTime := waitTime, calls := [], breaks := true }
  | RecvEvent.timeout =>
    { state := co.state, resolveAttempted := co.resolveAttempted,
      connectAttempted := co.connectAttempted, keyWrite := co.keyWrite,
      waitTime := waitTime, calls := [], breaks := false }
  | RecvEvent.command cmd =>
    if gateSuppressed env.audioActive cmd then
      { state := co.state, resolveAttempted := co.resolveAttempted,
        connectAttempted := co.connectAttempted, keyWrite := co.keyWrite,
        waitTime := waitTime, calls := [], breaks := false }
    else
      match co.state with
      | none =>
        { state := none, resolveAttempted := co.resolveAttempted,
          connectAttempted := co.connectAttempted, keyWrite := co.keyWrite,
          waitTime := waitTime, calls := [], breaks := false }
      | some c =>
        let d := dispatch env.behavior cmd
        { state := if d.2 then some c else none,
          resolveAttempted := co.resolveAttempted,
          connectAttempted := co.connectAttempted, keyWrite := co.keyWrite,
          waitTime := waitTime, calls := d.1.map (fun k => (c.id, k)),
          breaks := false }

/-- The four audio-affecting command tokens named by the spec. -/
def isAudioToken (cmd : String) : Bool :=
  cmd = "volume_up" || cmd = "volume_down" || cmd = "mute" || cmd = "unmute"

/-- Whether a given session-client call failed under this behavior. -/
def callFails (beh : ClientBehavior) : WebOsCommand → Bool
  | WebOsCommand.GetVolume => beh.getVolume.isNone
  | WebOsCommand.SetVolume _ => !beh.setVolumeOk
  | WebOsCommand.SetMute _ => !beh.setMuteOk


/-! ### Basic unfolding lemmas about `connectPhase` and `step` -/

theorem connectPhase_some (s : Session) (env : Env) :
    connectPhase (some s) env =
      { state := some s, resolveAttempted := false, connectAttempted := false,
        keyWrite := none } := rfl

theorem connectPhase_none_resolveAttempted (env : Env) :
    (connectPhase none env).resolveAttempted = true := by
  unfold connectPhase
  cases env.resolvedIp with
  | none => rfl
  | some ip => cases env.connectResult <;> rfl

theorem connectPhase_unresolved (env : Env) (h : env.resolvedIp = none) :
    connectPhase none env =
      { state := none, resolveAttempted := true, connectAttempted := false,
        keyWrite := none } := by
  unfold connectPhase
  rw [h]

theorem connectPhase_connected (env : Env) (ip : String) (c : Session)
    (hip : env.resolvedIp = some ip) (hc : env.connectResult = some c) :
    connectPhase none env =
      { state := some c, resolveAttempted := true, connectAttempted := true,
        keyWrite :=
          match c.key with
          | none => none
          | some newKey =>
            if env.keyFileContents.map (fun k => trimStr k) = some (trimStr newKey)
            then none else some (trimStr newKey) } := by
  unfold connectPhase
  rw [hip, hc]

theorem step_closed (st : Option Session) (env : Env)
    (hev : env.recvEvent = RecvEvent.closed) :
    step st env =
      { state := (connectPhase st env).state,
        resolveAttempted := (connectPhase st env).resolveAttempted,
        connectAttempted := (connectPhase st env).connectAttempted,
        keyWrite := (connectPhase st env).keyWrite,
        waitTime := if (connectPhase st env).state.isNone then 5 else 3600,
        calls := [], breaks := true } := by
  unfold step
  rw [hev]

theorem step_timeout (st : Option Session) (env : Env)
    (hev : env.recvEvent = RecvEvent.timeout) :
    step st env =
      { state := (connectPhase st env).state,
        resolveAttempted := (connectPhase st env).resolveAttempted,
        connectAttempted := (connectPhase st env).connectAttempted,
        keyWrite := (connectPhase st env).keyWrite,
        waitTime := if (connectPhase st env).state.isNone then 5 else 3600,
        calls := [], breaks := false } := by
  unfold step
  rw [hev]

theorem step_command_gated (st : Option Session) (env : Env) (cmd : String)
    (hev : env.recvEvent = RecvEvent.command cmd)
    (hg : gateSuppressed env.audioActive cmd = true) :
    step st env =
      { state := (connectPhase st env).state,
        resolveAttempted := (connectPhase st env).resolveAttempted,
        connectAttempted := (connectPhase st env).connectAttempted,
        keyWrite := (connectPhase st env).keyWrite,
        waitTime := if (connectPhase st env).state.isNone then 5 else 3600,
        calls := [], breaks := false } := by
  unfold step
  rw [hev]
  simp only [hg, if_true]

theorem step_command_ungated (st : Option Session) (env : Env) (cmd : String)
    (hev : env.recvEvent = RecvEvent.command cmd)
    (hg : gateSuppressed env.audioActive cmd = false) :
    step st env =
      match (connectPhase st env).state with
      | none =>
        { state := none,
          resolveAttempted := (connectPhase st env).resolveAttempted,
          connectAttempted := (connectPhase st env).connectAttempted,
          keyWrite := (connectPhase st env).keyWrite,
          waitTime := if (connectPhase st env).state.isNone then 5 else 3600,
          calls := [], breaks := false }
      | some c =>
        { state := if (dispatch env.behavior cmd).2 then some c else none,
          resolveAttempted := (connectPhase st env).resolveAttempted,
          connectAttempted := (connectPhase st env).connectAttempted,
          keyWrite := (connectPhase st env).keyWrite,
          waitTime := if (connectPhase st env).state.isNone then 5 else 3600,
          calls := (dispatch env.behavior cmd).1.map (fun k => (c.id, k)),
          breaks := false } := by
  unfold step
  rw [hev]
  simp only [hg, if_false, Bool.false_eq_true]

theorem step_command_dispatch (s : Session) (env : Env) (cmd : String)
    (hev : env.recvEvent = RecvEvent.command cmd)
    (hg : gateSuppressed env.audioActive cmd = false) :
    step (some s) env =
      { state := if (dispatch env.behavior cmd).2 then some s else none,
        resolveAttempted := false, connectAttempted := false, keyWrite := none,
        waitTime := 3600,
        calls := (dispatch env.behavior cmd).1.map (fun k => (s.id, k)),
        breaks := false } := by
  rw [step_command_ungated (some s) env cmd hev hg, connectPhase_some]
  rfl

theorem step_keyWrite (st : Option Session) (env : Env) :
    (step st env).keyWrite = (connectPhase st env).keyWrite := by
  cases hev : env.recvEvent with
  | closed => rw [step_closed st env hev]
  | timeout => rw [step_timeout st env hev]
  | command cmd =>
    rcases Or.symm (Bool.eq_false_or_eq_true (gateSuppressed env.audioActive cmd)) with hg | hg
    · rw [step_command_ungated st env cmd hev hg]
      cases hco : (connectPhase st env).state <;> rfl
    · rw [step_command_gated st env cmd hev hg]

theorem step_waitTime (st : Option Session) (env : Env) :
    (step st env).waitTime = if (connectPhase st env).state.isNone then 5 else 3600 := by
  cases hev : env.recvEvent with
  | closed => rw [step_closed st env hev]
  | timeout => rw [step_timeout st env hev]
  | command cmd =>
    rcases Or.symm (Bool.eq_false_or_eq_true (gateSuppressed env.audioActive cmd)) with hg | hg
    · rw [step_command_ungated st env cmd hev hg]
      cases hco : (connectPhase st env).state <;> simp [hco]
    · rw [step_command_gated st env cmd hev hg]

theorem step_resolveAttempted (st : Option Session) (env : Env) :
    (step st env).resolveAttempted = (connectPhase st env).resolveAttempted := by
  cases hev : env.recvEvent with
  | closed => rw [step_closed st env hev]
  | timeout => rw [step_timeout st env hev]
  | command cmd =>
    rcases Or.symm (Bool.eq_false_or_eq_true (gateSuppressed env.audioActive cmd)) with hg | hg
    · rw [step_command_ungated st env cmd hev hg]
      cases hco : (connectPhase st env).state <;> rfl
    · rw [step_command_gated st env cmd hev hg]

theorem step_breaks_iff (st : Option Session) (env : Env) :
    (step st env).breaks = true ↔ env.recvEvent = RecvEvent.closed := by
  cases hev : env.recvEvent with
  | closed => rw [step_closed st env hev]; simp
  | timeout => rw [step_timeout st env hev]; simp
  | command cmd =>
    rcases Or.symm (Bool.eq_false_or_eq_true (gateSuppressed env.audioActive cmd)) with hg | hg
    · rw [step_command_ungated st env cmd hev hg]
      cases hco : (connectPhase st env).state <;> simp
    · rw [step_command_gated st env cmd hev hg]; simp

theorem step_state_none (st : Option Session) (env : Env)
    (h : (connectPhase st env).state = none) :
    (step st env).state = none := by
  cases hev : env.recvEvent with
  | closed => rw [step_closed st env hev, h]
  | timeout => rw [step_timeout st env hev, h]
  | command cmd =>
    rcases Or.symm (Bool.eq_false_or_eq_true (gateSuppressed env.audioActive cmd)) with hg | hg
    · rw [step_command_ungated st env cmd hev hg, h]
    · rw [step_command_gated st env cmd hev hg, h]

theorem step_calls_nil_of_none (st : Option Session) (env : Env)
    (h : (connectPhase st env).state = none) :
    (step st env).calls = [] := by
  cases hev : env.recvEvent with
  | closed => rw [step_closed st env hev]
  | timeout => rw [step_timeout st env hev]
  | command cmd =>
    rcases Or.symm (Bool.eq_false_or_eq_true (gateSuppressed env.audioActive cmd)) with hg | hg
    · rw [step_command_ungated st env cmd hev hg, h]
    · rw [step_command_gated st env cmd hev hg]

theorem step_calls_tagged (st : Option Session) (env : Env) (c : Session)
    (hc : (connectPhase st env).state = some c) :
    ∀ pr ∈ (step st env).calls, pr.1 = c.id := by
  cases hev : env.recvEvent with
  | closed => rw [step_closed st env hev]; intro pr hpr; cases hpr
  | timeout => rw [step_timeout st env hev]; intro pr hpr; cases hpr
  | command cmd =>
    rcases Or.symm (Bool.eq_false_or_eq_true (gateSuppressed env.audioActive cmd)) with hg | hg
    · rw [step_command_ungated st env cmd hev hg, hc]
      intro pr hpr
      simp only [List.mem_map] at hpr
      rcases hpr with ⟨k, _, hk⟩
      rw [← hk]
    · rw [step_command_gated st env cmd hev hg]; intro pr hpr; cases hpr

/-! ### Lemmas about `dispatch` -/

theorem dispatch_noop (beh : ClientBehavior) (cmd : String)
    (h1 : cmd ≠ "volume_up") (h2 : cmd ≠ "volume_down")
    (h3 : cmd ≠ "mute") (h4 : cmd ≠ "unmute") :
    dispatch beh cmd = ([], true) := by
  unfold dispatch
  rw [if_neg h1, if_neg h2, if_neg h3, if_neg h4]

theorem dispatch_query_failed (beh : ClientBehavior) (cmd : String)
    (hcmd : cmd = "volume_up" ∨ cmd = "volume_down") (hq : beh.getVolume = none) :
    dispatch beh cmd = ([WebOsCommand.GetVolume], false) := by
  rcases hcmd with h | h <;> subst h <;> unfold dispatch <;> simp [hq]

theorem dispatch_malformed (beh : ClientBehavior) (cmd : String) (resp : Response)
    (hcmd : cmd = "volume_up" ∨ cmd = "volume_down")
    (hq : beh.getVolume = some resp)
    (hbad : resp.payload = none ∨ ∃ p, resp.payload = some p ∧ extractVolume p = none) :
    dispatch beh cmd = ([WebOsCommand.GetVolume], true) := by
  rcases hbad with hp | ⟨p, hp, he⟩ <;>
    rcases hcmd with h | h <;> subst h <;> unfold dispatch <;> simp [hq, hp]
  · rw [he]
  · rw [he]

theorem dispatch_up_vol (beh : ClientBehavior) (resp : Response) (p : Json) (v : Int)
    (hq : beh.getVolume = some resp) (hp : resp.payload = some p)
    (hv : extractVolume p = some v) :
    dispatch beh "volume_up" =
      ([WebOsCommand.GetVolume,
        WebOsCommand.SetVolume (asI8 (min (max (wrapI64 (v + 1)) 0) 100))],
        true) := by
  unfold dispatch
  simp [hq, hp, hv]

theorem dispatch_down_vol (beh : ClientBehavior) (resp : Response) (p : Json) (v : Int)
    (hq : beh.getVolume = some resp) (hp : resp.payload = some p)
    (hv : extractVolume p = some v) :
    dispatch beh "volume_down" =
      ([WebOsCommand.GetVolume,
        WebOsCommand.SetVolume (asI8 (min (max (wrapI64 (v - 1)) 0) 100))],
        true) := by
  unfold dispatch
  simp [hq, hp, hv]

theorem dispatch_snd_false_iff (beh : ClientBehavior) (cmd : String) :
    (dispatch beh cmd).2 = false ↔
      ((cmd = "volume_up" ∨ cmd = "volume_down") ∧ beh.getVolume = none) := by
  by_cases h1 : cmd = "volume_up"
  · subst h1
    cases hq : beh.getVolume with
    | none => rw [dispatch_query_failed beh _ (Or.inl rfl) hq]; simp
    | some resp =>
      unfold dispatch
      cases hp : resp.payload with
      | none => simp [hq, hp]
      | some p => cases he : extractVolume p <;> simp [hq, hp, he]
  · by_cases h2 : cmd = "volume_down"
    · subst h2
      cases hq : beh.getVolume with
      | none => rw [dispatch_query_failed beh _ (Or.inr rfl) hq]; simp
      | some resp =>
        unfold dispatch
        cases hp : resp.payload with
        | none => simp [hq, hp]
        | some p => cases he : extractVolume p <;> simp [hq, hp, he]
    · by_cases h3 : cmd = "mute"
      · subst h3; unfold dispatch; simp
      · by_cases h4 : cmd = "unmute"
        · subst h4; unfold dispatch; simp
        · rw [dispatch_noop beh cmd h1 h2 h3 h4]; simp [h1, h2]

/-- A value extracted by `as_i64` is in the `i64` range. -/
theorem extractVolume_range (p : Json) (v : Int) (hv : extractVolume p = some v) :
    -9223372036854775808 ≤ v ∧ v < 9223372036854775808 := by
  unfold extractVolume at hv
  cases hb : ((p.get "volumeStatus").bind fun s => s.get "volume") with
  | none => rw [hb] at hv; cases hv
  | some j =>
    rw [hb, Option.some_bind] at hv
    cases j with
    | int n =>
      by_cases hcond : -9223372036854775808 ≤ n ∧ n < 9223372036854775808
      · have hred : Json.as_i64 (Json.int n) = some n := by
          show (if -9223372036854775808 ≤ n ∧ n < 9223372036854775808
            then some n else none) = some n
          rw [if_pos hcond]
        rw [hred] at hv
        cases hv
        exact hcond
      · have hred : Json.as_i64 (Json.int n) = none := by
          show (if -9223372036854775808 ≤ n ∧ n < 9223372036854775808
            then some n else none) = none
          rw [if_neg hcond]
        rw [hred] at hv
        cases hv
    | null => cases hv
    | bool b => cases hv
    | str s => cases hv
    | obj fs => cases hv

/-- The `i64` wrap is the identity on values inside the `i64` range. -/
theorem wrapI64_eq_of_range (n : Int) (h1 : -9223372036854775808 ≤ n)
    (h2 : n < 9223372036854775808) : wrapI64 n = n := by
  unfold wrapI64
  omega

/-- The wrap of `nv as i8` is lossless after the clamp, and the code's
clamp order agrees with the spec's `clamp(x, 0, 100)`. -/
theorem asI8_clamp (x : Int) : asI8 (min (max x 0) 100) = max 0 (min x 100) := by
  unfold asI8
  simp only [min_def, max_def]
  split_ifs <;> omega

/-- The common result shape of an iteration that makes no session-client call
and leaves the connection state as the connection phase produced it. -/
def skipResult (st : Option Session) (env : Env) : StepResult :=
  { state := (connectPhase st env).state,
    resolveAttempted := (connectPhase st env).resolveAttempted,
    connectAttempted := (connectPhase st env).connectAttempted,
    keyWrite := (connectPhase st env).keyWrite,
    waitTime := if (connectPhase st env).state.isNone then 5 else 3600,
    calls := [], breaks := false }

theorem step_eq_skip_of_gate (st : Option Session) (env : Env) (cmd : String)
    (hev : env.recvEvent = RecvEvent.command cmd)
    (hg : gateSuppressed env.audioActive cmd = true) :
    step st env = skipResult st env := by
  rw [step_command_gated st env cmd hev hg]; rfl

theorem step_eq_skip_of_noop (st : Option Session) (env : Env) (cmd : String)
    (hev : env.recvEvent = RecvEvent.command cmd)
    (hg : gateSuppressed env.audioActive cmd = false)
    (hd : dispatch env.behavior cmd = ([], true)) :
    step st env = skipResult st env := by
  unfold skipResult
  rw [step_command_ungated st env cmd hev hg]
  cases hco : (connectPhase st env).state with
  | none => rfl
  | some c => rw [hd]; rfl

theorem connectPhase_audioIndep (st : Option Session) (env : Env) (b : Bool) :
    connectPhase st { env with audioActive := b } = connectPhase st env := rfl

theorem skipResult_audioIndep (st : Option Session) (env : Env) (b : Bool) :
    skipResult st { env with audioActive := b } = skipResult st env := rfl

/-! ### Concrete sample values used by the witnesses -/

def s0 : Session := { id := 0, key := none }

def s7 : Session := { id := 7, key := some " newkey \n" }

def payload50 : Json :=
  Json.obj [("volumeStatus", Json.obj [("volume", Json.int 50)])]

def resp50 : Response := { payload := some payload50 }

def respEmpty : Response := { payload := none }

def behOk50 : ClientBehavior :=
  { getVolume := some resp50, setVolumeOk := true, setMuteOk := true }

def behErr : ClientBehavior :=
  { getVolume := none, setVolumeOk := true, setMuteOk := true }

def behEmpty : ClientBehavior :=
  { getVolume := some respEmpty, setVolumeOk := true, setMuteOk := true }

def behMuteFail : ClientBehavior :=
  { getVolume := some resp50, setVolumeOk := true, setMuteOk := false }

def payloadMax : Json :=
  Json.obj [("volumeStatus", Json.obj [("volume", Json.int 9223372036854775807)])]

def respMax : Response := { payload := some payloadMax }

def behMax : ClientBehavior :=
  { getVolume := some respMax, setVolumeOk := true, setMuteOk := true }

/-- An environment with no resolvable address and no connect outcome. -/
def baseEnv (active : Bool) (ev : RecvEvent) (beh : ClientBehavior) : Env :=
  { resolvedIp := none, keyFileContents := none, connectResult := none,
    audioActive := active, recvEvent := ev, behavior := beh }

def envGate : Env := baseEnv false (RecvEvent.command "mute") behOk50

def envUpErr : Env := baseEnv true (RecvEvent.command "volume_up") behErr

def envMuteFail : Env := baseEnv true (RecvEvent.command "mute") behMuteFail

def envUpEmpty : Env := baseEnv true (RecvEvent.command "volume_up") behEmpty

def envTimeout : Env := baseEnv true RecvEvent.timeout behOk50

def envClosed : Env := baseEnv true RecvEvent.closed behOk50

def envHello : Env := baseEnv true (RecvEvent.command "hello") behOk50

def envConnect : Env :=
  { resolvedIp := some "10.0.0.2", keyFileContents := some "old\n",
    connectResult := some s7, audioActive := true,
    recvEvent := RecvEvent.timeout, behavior := behOk50 }

def envReconnect : Env :=
  { resolvedIp := some "10.0.0.2", keyFileContents := none,
    connectResult := some s7, audioActive := true,
    recvEvent := RecvEvent.command "mute", behavior := behOk50 }

/-! ### The claims -/

/-- C1: the audio-gate suppression applies to the four tokens `volume_up`,
`volume_down`, `mute`, `unmute`: when such a command arrives and the oracle
reports the TV is not the active audio sink, the command is silently discarded
with no session-client call and no state change; every other command token is
handled identically regardless of the gate's report. -/
theorem audio_gate_token_coverage (st : Option Session) (env : Env) (cmd : String)
    (hev : env.recvEvent = RecvEvent.command cmd) :
    (isAudioToken cmd = true → env.audioActive = false →
      (step st env).calls = [] ∧ (step st env).state = (connectPhase st env).state)
    ∧ (isAudioToken cmd = false →
      ∀ b b' : Bool,
        step st { env with audioActive := b } = step st { env with audioActive := b' }) := by
  constructor
  · intro htok haud
    have hg : gateSuppressed env.audioActive cmd = true := by
      simp only [isAudioToken, Bool.or_eq_true, decide_eq_true_eq] at htok
      rw [haud]
      rcases htok with ((h | h) | h) | h <;> subst h <;> decide
    rw [step_command_gated st env cmd hev hg]
    exact ⟨rfl, rfl⟩
  · intro htok b b'
    simp only [isAudioToken, Bool.or_eq_false_iff, decide_eq_false_iff_not] at htok
    obtain ⟨⟨⟨h1, h2⟩, h3⟩, h4⟩ := htok
    have key : ∀ bb : Bool, step st { env with audioActive := bb } = skipResult st env := by
      intro bb
      have hev' : ({ env with audioActive := bb } : Env).recvEvent = RecvEvent.command cmd :=
        hev
      rcases Bool.eq_false_or_eq_true (gateSuppressed bb cmd) with hg | hg
      · rw [step_eq_skip_of_gate st _ cmd hev' hg, skipResult_audioIndep]
      · have hd : dispatch ({ env with audioActive := bb } : Env).behavior cmd = ([], true) :=
          dispatch_noop env.behavior cmd h1 h2 h3 h4
        rw [step_eq_skip_of_noop st _ cmd hev' hg hd, skipResult_audioIndep]
    rw [key b, key b']

theorem audio_gate_token_coverage_witness :
    (step (some s0) envGate).calls = [] ∧
      (step (some s0) envGate).state = (connectPhase (some s0) envGate).state :=
  (audio_gate_token_coverage (some s0) envGate "mute" rfl).1 (by decide) rfl

/-- C2: while connected, a dispatched command drops the session if and only if
the get-volume query fails; set-volume and set-mute failures are swallowed and
the session is retained. -/
theorem asymmetric_failure_policy (s : Session) (env : Env) (cmd : String)
    (hev : env.recvEvent = RecvEvent.command cmd)
    (hg : gateSuppressed env.audioActive cmd = false) :
    (step (some s) env).state = none ↔
      ((cmd = "volume_up" ∨ cmd = "volume_down") ∧ env.behavior.getVolume = none) := by
  rw [step_command_dispatch s env cmd hev hg,
    ← dispatch_snd_false_iff env.behavior cmd]
  cases hd : (dispatch env.behavior cmd).2 <;> simp [hd]

theorem asymmetric_failure_policy_witness :
    (step (some s0) envUpErr).state = none :=
  (asymmetric_failure_policy s0 envUpErr "volume_up" rfl rfl).mpr ⟨Or.inl rfl, rfl⟩

/-- C3 counterexample: a dispatched `mute` whose set-mute call fails leaves the
session in place, so it is false that any failing session-client call during a
dispatch destroys the session. -/
theorem session_destroyed_on_any_failure_cex :
    envMuteFail.recvEvent = RecvEvent.command "mute"
    ∧ gateSuppressed envMuteFail.audioActive "mute" = false
    ∧ (∃ pr ∈ (step (some s0) envMuteFail).calls,
        callFails envMuteFail.behavior pr.2 = true)
    ∧ ¬ (step (some s0) envMuteFail).state = none := by
  refine ⟨rfl, rfl, by decide, by decide⟩

/-- C3 (amended): the session is destroyed the instant the get-volume probe
call fails — the next iteration must re-resolve — while failures of the
write-only calls (set-volume, set-mute) never destroy it. -/
theorem session_destroyed_on_probe_failure (s : Session) (env : Env) (cmd : String)
    (hev : env.recvEvent = RecvEvent.command cmd)
    (hg : gateSuppressed env.audioActive cmd = false) :
    ((cmd = "volume_up" ∨ cmd = "volume_down") → env.behavior.getVolume = none →
      (step (some s) env).state = none
      ∧ ∀ env' : Env, (step none env').resolveAttempted = true)
    ∧ ((cmd = "mute" ∨ cmd = "unmute") → (step (some s) env).state = some s)
    ∧ ((cmd = "volume_up" ∨ cmd = "volume_down") → ∀ resp,
      env.behavior.getVolume = some resp → (step (some s) env).state = some s) := by
  refine ⟨?_, ?_, ?_⟩
  · intro hcmd hq
    constructor
    · rw [step_command_dispatch s env cmd hev hg,
        dispatch_query_failed env.behavior cmd hcmd hq]
      rfl
    · intro env'
      rw [step_resolveAttempted, connectPhase_none_resolveAttempted]
  · intro hcmd
    have hd : (dispatch env.behavior cmd).2 = true := by
      rcases Bool.eq_false_or_eq_true (dispatch env.behavior cmd).2 with h | h
      · exact h
      · rcases (dispatch_snd_false_iff env.behavior cmd).mp h with ⟨hup, _⟩
        rcases hcmd with h' | h' <;> subst h' <;> rcases hup with h'' | h'' <;>
          exact absurd h'' (by decide)
    rw [step_command_dispatch s env cmd hev hg]
    simp [hd]
  · intro hcmd resp hq
    have hd : (dispatch env.behavior cmd).2 = true := by
      rcases Bool.eq_false_or_eq_true (dispatch env.behavior cmd).2 with h | h
      · exact h
      · rcases (dispatch_snd_false_iff env.behavior cmd).mp h with ⟨_, hnone⟩
        rw [hq] at hnone
        cases hnone
    rw [step_command_dispatch s env cmd hev hg]
    simp [hd]

theorem session_destroyed_on_probe_failure_witness :
    (step (some s0) envMuteFail).state = some s0 :=
  (session_destroyed_on_probe_failure s0 envMuteFail "mute" rfl rfl).2.1 (Or.inl rfl)

/-- C4 counterexample: at `vol = i64::MAX` (a value `as_i64()` can return)
the `i64` increment at `main.rs:174` wraps, so `volume_up` sends
`SetVolume 0`, not `clamp(v + 1, 0, 100) = 100` as the claim states for
every queried volume. -/
theorem volume_clamp_boundaries_cex :
    extractVolume payloadMax = some 9223372036854775807
    ∧ dispatch behMax "volume_up"
      = ([WebOsCommand.GetVolume, WebOsCommand.SetVolume 0], true)
    ∧ max 0 (min ((9223372036854775807 : Int) + 1) 100) = 100 := by
  refine ⟨by decide, by decide, by decide⟩

/-- C4 (amended): for every volume `v` returned by the query other than the
`i64` endpoints, `volume_up` sends set-volume with `clamp(v + 1, 0, 100)` and
`volume_down` with `clamp(v - 1, 0, 100)`; at the boundaries, `volume_down`
at 0 sets 0 and `volume_up` at 100 sets 100. At `v = i64::MAX` (resp.
`i64::MIN`) the `i64` increment (decrement) wraps instead. -/
theorem volume_clamp_boundaries (beh : ClientBehavior) (resp : Response) (p : Json) (v : Int)
    (hq : beh.getVolume = some resp) (hp : resp.payload = some p)
    (hv : extractVolume p = some v)
    (hub : v < 9223372036854775807) (hlb : -9223372036854775808 < v) :
    dispatch beh "volume_up" =
      ([WebOsCommand.GetVolume, WebOsCommand.SetVolume (max 0 (min (v + 1) 100))], true)
    ∧ dispatch beh "volume_down" =
      ([WebOsCommand.GetVolume, WebOsCommand.SetVolume (max 0 (min (v - 1) 100))], true)
    ∧ (v = 0 → max 0 (min (v - 1) 100) = 0)
    ∧ (v = 100 → max 0 (min (v + 1) 100) = 100) := by
  have hw1 : wrapI64 (v + 1) = v + 1 :=
    wrapI64_eq_of_range _ (by omega) (by omega)
  have hw2 : wrapI64 (v - 1) = v - 1 :=
    wrapI64_eq_of_range _ (by omega) (by omega)
  refine ⟨?_, ?_, ?_, ?_⟩
  · rw [dispatch_up_vol beh resp p v hq hp hv, hw1, asI8_clamp]
  · rw [dispatch_down_vol beh resp p v hq hp hv, hw2, asI8_clamp]
  · intro h; subst h; decide
  · intro h; subst h; decide

theorem volume_clamp_boundaries_witness :
    dispatch behOk50 "volume_up" =
      ([WebOsCommand.GetVolume, WebOsCommand.SetVolume (max 0 (min (50 + 1) 100))], true)
    ∧ dispatch behOk50 "volume_down" =
      ([WebOsCommand.GetVolume, WebOsCommand.SetVolume (max 0 (min (50 - 1) 100))], true)
    ∧ ((50 : Int) = 0 → max 0 (min ((50 : Int) - 1) 100) = 0)
    ∧ ((50 : Int) = 100 → max 0 (min ((50 : Int) + 1) 100) = 100) :=
  volume_clamp_boundaries behOk50 resp50 payload50 50 rfl rfl (by decide)
    (by decide) (by decide)

/-- C5: on a successful connect, if the client yields a credential whose
trimmed value differs from the cached one loaded from the key file, exactly
that trimmed credential is written; if it matches, or the client yields no
credential, nothing is written. -/
theorem credential_persistence (env : Env) (c : Session) (ip : String)
    (hip : env.resolvedIp = some ip) (hc : env.connectResult = some c) :
    (∀ k, c.key = some k →
      (¬ env.keyFileContents.map (fun s => trimStr s) = some (trimStr k) →
        (step none env).keyWrite = some (trimStr k))
      ∧ (env.keyFileContents.map (fun s => trimStr s) = some (trimStr k) →
        (step none env).keyWrite = none))
    ∧ (c.key = none → (step none env).keyWrite = none) := by
  have hw : (step none env).keyWrite = (connectPhase none env).keyWrite :=
    step_keyWrite none env
  rw [connectPhase_connected env ip c hip hc] at hw
  constructor
  · intro k hk
    simp only [hk] at hw
    constructor
    · intro hne
      rw [hw, if_neg hne]
    · intro heq
      rw [hw, if_pos heq]
  · intro hk
    simp only [hk] at hw
    exact hw

theorem credential_persistence_witness :
    (step none envConnect).keyWrite = some (trimStr " newkey \n") :=
  ((credential_persistence envConnect s7 "10.0.0.2" rfl rfl).1 " newkey \n" rfl).1
    (by decide)

/-- C6: a session is never reused across a probe failure: the failing query
drops the state to `none`, the next iteration attempts resolution again, and a
successful resolve-plus-connect installs the freshly connected session — every
call of that iteration is tagged with the fresh session's id. -/
theorem session_not_reused_after_probe_failure (s : Session) (env env' : Env) (cmd : String)
    (hev : env.recvEvent = RecvEvent.command cmd)
    (hg : gateSuppressed env.audioActive cmd = false)
    (hcmd : cmd = "volume_up" ∨ cmd = "volume_down")
    (hfail : env.behavior.getVolume = none) :
    (step (some s) env).state = none
    ∧ (step none env').resolveAttempted = true
    ∧ (∀ ip c', env'.resolvedIp = some ip → env'.connectResult = some c' →
        (connectPhase none env').connectAttempted = true
        ∧ (connectPhase none env').state = some c'
        ∧ ∀ pr ∈ (step none env').calls, pr.1 = c'.id) := by
  refine ⟨?_, ?_, ?_⟩
  · rw [step_command_dispatch s env cmd hev hg,
      dispatch_query_failed env.behavior cmd hcmd hfail]
    rfl
  · rw [step_resolveAttempted, connectPhase_none_resolveAttempted]
  · intro ip c' hip hc
    refine ⟨?_, ?_, ?_⟩
    · rw [connectPhase_connected env' ip c' hip hc]
    · rw [connectPhase_connected env' ip c' hip hc]
    · exact step_calls_tagged none env' c'
        (by rw [connectPhase_connected env' ip c' hip hc])

theorem session_not_reused_after_probe_failure_witness :
    (step (some s0) envUpErr).state = none
    ∧ (step none envReconnect).resolveAttempted = true
    ∧ (connectPhase none envReconnect).state = some s7 :=
  have h := session_not_reused_after_probe_failure s0 envUpErr envReconnect "volume_up"
    rfl rfl (Or.inl rfl) rfl
  ⟨h.1, h.2.1, (h.2.2 "10.0.0.2" s7 rfl rfl).2.1⟩

/-- C7: while disconnected with an unresolvable address the supervisor stays
disconnected, makes no session-client call, and waits with the short 5-second
timeout; while connected the wait timeout is the long 3600-second interval. -/
theorem disconnected_retry_interval (env : Env) :
    (env.resolvedIp = none →
      (step none env).waitTime = 5 ∧ (step none env).calls = []
      ∧ (step none env).state = none)
    ∧ ∀ s : Session, (step (some s) env).waitTime = 3600 := by
  constructor
  · intro hip
    have hco := connectPhase_unresolved env hip
    refine ⟨?_, ?_, ?_⟩
    · rw [step_waitTime, hco]
      rfl
    · exact step_calls_nil_of_none none env (by rw [hco])
    · exact step_state_none none env (by rw [hco])
  · intro s
    rw [step_waitTime, connectPhase_some]
    rfl

theorem disconnected_retry_interval_witness :
    (step none envTimeout).waitTime = 5 ∧ (step none envTimeout).calls = []
    ∧ (step none envTimeout).state = none
    ∧ (step (some s0) envTimeout).waitTime = 3600 :=
  have h := disconnected_retry_interval envTimeout
  ⟨(h.1 rfl).1, (h.1 rfl).2.1, (h.1 rfl).2.2, h.2 s0⟩

/-- C8: a command consumed while no session exists has no effect: no
session-client call, no buffering (the following iteration is as if the
command never happened), no loop exit, and the state stays disconnected. -/
theorem command_without_session_no_effect (env : Env) (cmd : String)
    (hev : env.recvEvent = RecvEvent.command cmd)
    (hst : (connectPhase none env).state = none) :
    (step none env).calls = [] ∧ (step none env).state = none
    ∧ (step none env).breaks = false
    ∧ ∀ env₂ : Env, step (step none env).state env₂ = step none env₂ := by
  have hstate : (step none env).state = none := step_state_none none env hst
  refine ⟨step_calls_nil_of_none none env hst, hstate, ?_, ?_⟩
  · rcases Bool.eq_false_or_eq_true (step none env).breaks with h | h
    · exfalso
      have hclosed := (step_breaks_iff none env).mp h
      rw [hev] at hclosed
      cases hclosed
    · exact h
  · intro env₂
    rw [hstate]

theorem command_without_session_no_effect_witness :
    (step none envHello).calls = [] ∧ (step none envHello).state = none
    ∧ (step none envHello).breaks = false :=
  have h := command_without_session_no_effect envHello "hello" rfl rfl
  ⟨h.1, h.2.1, h.2.2.1⟩

/-- C9: the supervisor loop terminates exactly when the command channel
signals end-of-stream; a wait timeout never terminates it and leaves the
connection state exactly as the connection phase produced it, with no calls. -/
theorem loop_exit_iff_closed (st : Option Session) (env : Env) :
    ((step st env).breaks = true ↔ env.recvEvent = RecvEvent.closed)
    ∧ (env.recvEvent = RecvEvent.timeout →
      (step st env).state = (connectPhase st env).state
      ∧ (step st env).calls = [] ∧ (step st env).breaks = false) := by
  refine ⟨step_breaks_iff st env, ?_⟩
  intro hev
  rw [step_timeout st env hev]
  exact ⟨rfl, rfl, rfl⟩

theorem loop_exit_iff_closed_witness :
    (step (some s0) envClosed).breaks = true
    ∧ (step (some s0) envTimeout).state = (connectPhase (some s0) envTimeout).state :=
  ⟨(loop_exit_iff_closed (some s0) envClosed).1.mpr rfl,
    ((loop_exit_iff_closed (some s0) envTimeout).2 rfl).1⟩

/-- C10: a successful get-volume query whose response has no payload, or whose
payload lacks an integer volume field, makes no set-volume call; the command
counts as handled (`Ok`) and the session is retained. -/
theorem malformed_payload_swallowed (s : Session) (env : Env) (cmd : String) (resp : Response)
    (hev : env.recvEvent = RecvEvent.command cmd)
    (hg : gateSuppressed env.audioActive cmd = false)
    (hcmd : cmd = "volume_up" ∨ cmd = "volume_down")
    (hq : env.behavior.getVolume = some resp)
    (hbad : resp.payload = none ∨ ∃ p, resp.payload = some p ∧ extractVolume p = none) :
    (dispatch env.behavior cmd).2 = true
    ∧ (step (some s) env).calls = [(s.id, WebOsCommand.GetVolume)]
    ∧ (step (some s) env).state = some s := by
  have hd := dispatch_malformed env.behavior cmd resp hcmd hq hbad
  rw [step_command_dispatch s env cmd hev hg, hd]
  exact ⟨rfl, rfl, rfl⟩

theorem malformed_payload_swallowed_witness :
    (dispatch envUpEmpty.behavior "volume_up").2 = true
    ∧ (step (some s0) envUpEmpty).calls = [(s0.id, WebOsCommand.GetVolume)]
    ∧ (step (some s0) envUpEmpty).state = some s0 :=
  malformed_payload_swallowed s0 envUpEmpty "volume_up" respEmpty rfl rfl (Or.inl rfl)
    rfl (Or.inl rfl)

end LgTv
